import Mathlib

/-!
Shallow embedding of the analysis engine of the azure-storage-analyzer
repository, together with theorems checking the natural-language
specification's claims against it.

Sources embedded:
 * `src/src/analyzers/security_analyzer.py` (class `SecurityAnalyzer`)
 * `src/src/analyzers/cost_analyzer.py` (class `CostAnalyzer` and the
   module-level pricing tables)
 * `src/assess_storage.py` (`detect_workload_profile_from_shares`,
   `StorageAssessment.analyze_results` profile re-detection pass, and
   `StorageAssessment._generate_top_recommendations`)

Modelling conventions:
 * Python dictionaries with a fixed key set become structures; keys read with
   `.get(k, default)` become `Option` fields read through `Option.getD`.
 * Python floats become exact rationals (`ℚ`); machine floating point plays
   no role in any claim being checked (all checked facts are sign, fallback
   and ordering facts that hold for exact arithmetic).
 * Python `int(x)` on a non-negative float becomes `Int.floor`.
 * Python truthiness of an optional boolean field (`if not x:`) becomes
   `Option.getD x false`; truthiness of an optional string field
   (`if s and ...`) checks `none`-ness and emptiness.
-/

namespace AzStorage

/-- A security/governance finding dictionary, as built by the analyzers:
keys `type`, `severity`, `resource`, `finding`, `recommendation`,
`remediation` (the Python key `type` is spelled `ftype` here). -/
structure Finding where
  ftype : String
  severity : String
  resource : String
  finding : String
  recommendation : String
  remediation : String
deriving DecidableEq

/-- The `encryption_services` sub-dictionary of a storage-account snapshot:
for each service the code only reads `.get(service, {}).get('enabled', False)`,
so each service is represented by that boolean. -/
structure EncryptionServices where
  blob : Bool
  file : Bool
  queue : Bool
  table : Bool
deriving DecidableEq

/-- The `network_rule_set` sub-dictionary: `default_action`, the list of the
`value` strings of `ip_rules`, and the `virtual_network_rules` list (only its
emptiness is ever read, its elements are kept as opaque strings). -/
structure NetworkRuleSet where
  default_action : Option String
  ip_rules : List String
  virtual_network_rules : List String
deriving DecidableEq

/-- The `blob_service_properties` sub-dictionary: the code reads
`delete_retention_policy.get('enabled', False)`,
`container_delete_retention_policy.get('enabled', False)`,
`is_versioning_enabled` (default `False`) and `change_feed.get('enabled', False)`. -/
structure BlobServiceProps where
  delete_retention_enabled : Bool
  container_delete_retention_enabled : Bool
  is_versioning_enabled : Bool
  change_feed_enabled : Bool
deriving DecidableEq

/-- A storage-account configuration snapshot (the dictionary produced by the
collector), restricted to the fields the analyzers read. `Option` marks
fields read with `.get` whose absence (Python `None`/missing key) matters. -/
structure StorageAccount where
  name : String
  location : String
  subscription_id : String
  sku : Option String
  allow_blob_public_access : Option Bool
  https_only : Option Bool
  min_tls_version : Option String
  encryption_services : EncryptionServices
  encryption_key_source : Option String
  network_rule_set : NetworkRuleSet
  allow_shared_key_access : Option Bool
  default_to_oauth_authentication : Option Bool
  blob_service_properties : BlobServiceProps
deriving DecidableEq

/-- The `security` section of the configuration dictionary; every flag is
read with `.get(key, True)`. -/
structure SecurityConfig where
  check_public_access : Option Bool
  check_encryption : Option Bool
  check_network_rules : Option Bool
  check_auth_methods : Option Bool
  check_soft_delete : Option Bool
  check_versioning : Option Bool
deriving DecidableEq

/-- The `cost_analysis.tier_recommendations` section of the configuration:
`cool_tier_days` (default 30), `archive_tier_days` (default 180),
`min_size_gb` (default 1). -/
structure TierRecommendationsConfig where
  cool_tier_days : Option ℕ
  archive_tier_days : Option ℕ
  min_size_gb : Option ℚ
deriving DecidableEq

/-- The `cost_analysis` section of the configuration. -/
structure CostAnalysisConfig where
  enabled : Option Bool
  workload_profile : Option String
  tier_recommendations : TierRecommendationsConfig
deriving DecidableEq

/-- The configuration dictionary, restricted to the sections the embedded
code reads. -/
structure Config where
  security : SecurityConfig
  cost_analysis : CostAnalysisConfig
deriving DecidableEq

/-- `SecurityAnalyzer.analyze_public_access`. -/
def analyze_public_access (sa : StorageAccount) : List Finding :=
  if sa.allow_blob_public_access = some true then
    [{ ftype := "public_access", severity := "high", resource := sa.name,
       finding := "Public blob access is enabled at storage account level",
       recommendation := "Disable public blob access unless specifically required",
       remediation := "Set allowBlobPublicAccess to false" }]
  else []

/-- One at-rest encryption check of `SecurityAnalyzer.analyze_encryption`,
for the service named `svc` (capitalised form `svcCap`) with encryption flag
`enabled`. -/
def encryption_service_finding (sa : StorageAccount) (svc svcCap : String)
    (enabled : Bool) : List Finding :=
  if enabled then []
  else
    [{ ftype := "encryption_at_rest", severity := "high", resource := sa.name,
       finding := svcCap ++ " service encryption is not enabled",
       recommendation := "Enable encryption for " ++ svc ++ " service",
       remediation := "Enable encryption.services." ++ svc ++ ".enabled" }]

/-- `SecurityAnalyzer.analyze_encryption`. -/
def analyze_encryption (sa : StorageAccount) : List Finding :=
  (if (sa.https_only.getD false) = false then
    [{ ftype := "encryption_in_transit", severity := "high", resource := sa.name,
       finding := "HTTPS-only traffic is not enforced",
       recommendation := "Enable HTTPS-only traffic to protect data in transit",
       remediation := "Set supportsHttpsTrafficOnly to true" }]
  else []) ++
  (match sa.min_tls_version with
   | none => []
   | some t =>
     if t ≠ "" ∧ t ∉ ["TLS1_2", "TLS1_3"] then
       [{ ftype := "tls_version", severity := "medium", resource := sa.name,
          finding := "Minimum TLS version is " ++ t ++ ", should be TLS 1.2 or higher",
          recommendation := "Set minimum TLS version to TLS 1.2",
          remediation := "Set minimumTlsVersion to TLS1_2" }]
     else []) ++
  encryption_service_finding sa "blob" "Blob" sa.encryption_services.blob ++
  encryption_service_finding sa "file" "File" sa.encryption_services.file ++
  encryption_service_finding sa "queue" "Queue" sa.encryption_services.queue ++
  encryption_service_finding sa "table" "Table" sa.encryption_services.table ++
  (if sa.encryption_key_source = some "Microsoft.Storage" then
    [{ ftype := "encryption_key_management", severity := "info", resource := sa.name,
       finding := "Using Microsoft-managed encryption keys",
       recommendation := "Consider using customer-managed keys for enhanced control",
       remediation := "Configure customer-managed keys in Azure Key Vault" }]
  else [])

/-- `SecurityAnalyzer.analyze_network_access`. -/
def analyze_network_access (sa : StorageAccount) : List Finding :=
  (if sa.network_rule_set.default_action = some "Allow" then
    [{ ftype := "network_access", severity := "high", resource := sa.name,
       finding := "Storage account allows access from all networks",
       recommendation := "Restrict network access to specific virtual networks or IP ranges",
       remediation := "Configure firewall rules and set default action to Deny" }]
  else []) ++
  (sa.network_rule_set.ip_rules.flatMap (fun ip_range =>
    if ip_range.startsWith "0.0.0.0" ∨ ip_range = "*" then
      [{ ftype := "network_access", severity := "high", resource := sa.name,
         finding := "Overly permissive IP rule: " ++ ip_range,
         recommendation := "Remove overly broad IP rules",
         remediation := "Specify exact IP addresses or narrow CIDR ranges" }]
    else [])) ++
  (if sa.network_rule_set.virtual_network_rules.isEmpty ∧
      sa.network_rule_set.default_action = some "Deny" then
    [{ ftype := "network_access", severity := "info", resource := sa.name,
       finding := "No virtual network rules configured",
       recommendation := "Consider using virtual network service endpoints for secure access",
       remediation := "Configure virtual network rules or private endpoints" }]
  else [])

/-- `SecurityAnalyzer.analyze_authentication`. -/
def analyze_authentication (sa : StorageAccount) : List Finding :=
  (if sa.allow_shared_key_access ≠ some false then
    [{ ftype := "authentication", severity := "medium", resource := sa.name,
       finding := "Shared key (access key) authentication is enabled",
       recommendation := "Consider disabling shared key access and use Azure AD authentication only",
       remediation := "Set allowSharedKeyAccess to false (after ensuring apps use Azure AD)" }]
  else []) ++
  (if (sa.default_to_oauth_authentication.getD false) = false then
    [{ ftype := "authentication", severity := "info", resource := sa.name,
       finding := "Azure AD authentication is not set as default",
       recommendation := "Enable Azure AD as the default authentication method",
       remediation := "Set defaultToOAuthAuthentication to true" }]
  else [])

/-- `SecurityAnalyzer.analyze_data_protection`. -/
def analyze_data_protection (sa : StorageAccount) : List Finding :=
  (if sa.blob_service_properties.delete_retention_enabled then []
  else
    [{ ftype := "data_protection", severity := "medium", resource := sa.name,
       finding := "Soft delete for blobs is not enabled",
       recommendation := "Enable soft delete to protect against accidental deletion",
       remediation := "Enable soft delete with appropriate retention period (7-365 days)" }]) ++
  (if sa.blob_service_properties.container_delete_retention_enabled then []
  else
    [{ ftype := "data_protection", severity := "medium", resource := sa.name,
       finding := "Soft delete for containers is not enabled",
       recommendation := "Enable container soft delete",
       remediation := "Enable container soft delete with retention period" }]) ++
  (if sa.blob_service_properties.is_versioning_enabled then []
  else
    [{ ftype := "data_protection", severity := "low", resource := sa.name,
       finding := "Blob versioning is not enabled",
       recommendation := "Consider enabling versioning for better data protection",
       remediation := "Enable blob versioning" }]) ++
  (if sa.blob_service_properties.change_feed_enabled then []
  else
    [{ ftype := "data_protection", severity := "info", resource := sa.name,
       finding := "Change feed is not enabled",
       recommendation := "Enable change feed for audit and tracking capabilities",
       remediation := "Enable change feed logging" }])

/-- The dictionary returned by
`SecurityAnalyzer.analyze_storage_account_security`; the
`findings_by_severity` sub-dictionary is flattened into one field per
severity key. -/
structure SecurityAnalysis where
  storage_account : String
  security_score : ℤ
  total_findings : ℕ
  critical_findings : List Finding
  high_findings : List Finding
  medium_findings : List Finding
  low_findings : List Finding
  info_findings : List Finding
  all_findings : List Finding
deriving DecidableEq

/-- `SecurityAnalyzer.analyze_storage_account_security`. -/
def analyze_storage_account_security (sa : StorageAccount) (config : Config) :
    SecurityAnalysis :=
  let sc := config.security
  let all_findings : List Finding :=
    (if sc.check_public_access.getD true then analyze_public_access sa else []) ++
    (if sc.check_encryption.getD true then analyze_encryption sa else []) ++
    (if sc.check_network_rules.getD true then analyze_network_access sa else []) ++
    (if sc.check_auth_methods.getD true then analyze_authentication sa else []) ++
    (if sc.check_soft_delete.getD true ∨ sc.check_versioning.getD true then
      analyze_data_protection sa else [])
  let critical := all_findings.filter (fun f => f.severity == "critical")
  let high := all_findings.filter (fun f => f.severity == "high")
  let medium := all_findings.filter (fun f => f.severity == "medium")
  let low := all_findings.filter (fun f => f.severity == "low")
  let info := all_findings.filter (fun f => f.severity == "info")
  { storage_account := sa.name
    security_score :=
      max 0 (100 - 25 * (critical.length : ℤ) - 15 * (high.length : ℤ)
        - 5 * (medium.length : ℤ))
    total_findings := all_findings.length
    critical_findings := critical
    high_findings := high
    medium_findings := medium
    low_findings := low
    info_findings := info
    all_findings := all_findings }

/-- Number of findings in `l` carrying severity `sev`. -/
def countSeverity (l : List Finding) (sev : String) : ℕ :=
  (l.filter (fun f => f.severity == sev)).length

/-- The module-level `PRICING` table of `cost_analyzer.py`: blob price per
GB-month, keyed by access tier then SKU; association lists mirror the
Python dictionaries (all keys distinct). -/
def PRICING : List (String × List (String × ℚ)) :=
  [("Hot",
    [("Standard_LRS", 0.0184), ("Standard_GRS", 0.0368), ("Standard_RAGRS", 0.046),
     ("Standard_ZRS", 0.0221), ("Standard_GZRS", 0.0455), ("Standard_RAGZRS", 0.05525)]),
   ("Cool",
    [("Standard_LRS", 0.01), ("Standard_GRS", 0.02), ("Standard_RAGRS", 0.025),
     ("Standard_ZRS", 0.012), ("Standard_GZRS", 0.025), ("Standard_RAGZRS", 0.03125)]),
   ("Archive",
    [("Standard_LRS", 0.00099), ("Standard_GRS", 0.00198), ("Standard_RAGRS", 0.00198)])]

/-- The module-level `FILE_SHARE_PRICING` table of `cost_analyzer.py`:
blended Azure Files price per GB-month, keyed by workload profile then SKU. -/
def FILE_SHARE_PRICING : List (String × List (String × ℚ)) :=
  [("light",
    [("Standard_LRS", 0.10), ("Standard_GRS", 0.18), ("Standard_ZRS", 0.12),
     ("Standard_GZRS", 0.22), ("Premium_LRS", 0.20), ("Premium_ZRS", 0.24)]),
   ("moderate",
    [("Standard_LRS", 0.20), ("Standard_GRS", 0.35), ("Standard_ZRS", 0.25),
     ("Standard_GZRS", 0.45), ("Premium_LRS", 0.20), ("Premium_ZRS", 0.24)]),
   ("heavy",
    [("Standard_LRS", 0.48), ("Standard_GRS", 0.75), ("Standard_ZRS", 0.55),
     ("Standard_GZRS", 0.85), ("Premium_LRS", 0.20), ("Premium_ZRS", 0.24)])]

/-- `CostAnalyzer.estimate_storage_cost`. The analyzer's
`self.workload_profile` instance attribute is passed explicitly as the first
argument `wp`. `size_bytes` is `ℚ` because callers pass both Python ints and
floats. -/
def estimate_storage_cost (wp : String) (size_bytes : ℚ)
    (access_tier : String) (sku : String) : ℚ :=
  if size_bytes = 0 then 0
  else
    let size_gb := size_bytes / 1024 ^ 3
    if access_tier = "FileShares" then
      let profile := if (FILE_SHARE_PRICING.lookup wp).isSome then wp else "moderate"
      let pricing_table := (FILE_SHARE_PRICING.lookup profile).getD []
      let sku2 := if (pricing_table.lookup sku).isSome then sku else "Standard_LRS"
      size_gb * (pricing_table.lookup sku2).getD 0.20
    else
      let tier := if (PRICING.lookup access_tier).isSome then access_tier else "Hot"
      let tier_table := (PRICING.lookup tier).getD []
      let sku2 := if (tier_table.lookup sku).isSome then sku else "Standard_LRS"
      size_gb * (tier_table.lookup sku2).getD 0.0184

/-- The dictionary returned by
`CostAnalyzer.calculate_tier_optimization_savings`. -/
structure SavingsEstimate where
  current_tier : String
  recommended_tier : String
  size_bytes : ℚ
  size_gb : ℚ
  current_monthly_cost : ℚ
  optimized_monthly_cost : ℚ
  monthly_savings : ℚ
  annual_savings : ℚ
  savings_percent : ℚ
deriving DecidableEq

/-- `CostAnalyzer.calculate_tier_optimization_savings`. -/
def calculate_tier_optimization_savings (wp : String)
    (current_tier recommended_tier : String) (size_bytes : ℚ) (sku : String) :
    SavingsEstimate :=
  let current_cost := estimate_storage_cost wp size_bytes current_tier sku
  let optimized_cost := estimate_storage_cost wp size_bytes recommended_tier sku
  let monthly_savings := current_cost - optimized_cost
  { current_tier := current_tier
    recommended_tier := recommended_tier
    size_bytes := size_bytes
    size_gb := size_bytes / 1024 ^ 3
    current_monthly_cost := current_cost
    optimized_monthly_cost := optimized_cost
    monthly_savings := monthly_savings
    annual_savings := monthly_savings * 12
    savings_percent :=
      if 0 < current_cost then monthly_savings / current_cost * 100 else 0 }

/-- One entry of a container's `access_tier_distribution` dictionary
(`count`, `size_bytes`). A tier key absent from the dictionary is read with
`.get(tier, {})`, i.e. both values default to 0. -/
structure TierBucket where
  count : ℕ
  size_bytes : ℕ
deriving DecidableEq

/-- A container's `access_tier_distribution` dictionary (the collector only
ever writes the keys `Hot`, `Cool`, `Archive`). -/
structure AccessTierDist where
  hot : TierBucket
  cool : TierBucket
  archive : TierBucket
deriving DecidableEq

/-- A blob-container usage record as produced by the container collector,
restricted to the fields the analyzers read. Counts and byte totals are
natural numbers, as the collector produces non-negative integers. -/
structure Container where
  name : String
  blob_count : ℕ
  stale_blob_count : ℕ
  stale_size_bytes : ℕ
  total_size_bytes : ℕ
  access_tier_distribution : AccessTierDist
deriving DecidableEq

/-- A cost-optimization recommendation dictionary as built by
`CostAnalyzer.analyze_container_cost_optimization` (its Python key `type` is
spelled `rtype` here). -/
structure CostRecommendation where
  rtype : String
  severity : String
  container : String
  current_tier : String
  recommended_tier : String
  affected_size_bytes : ℚ
  affected_blob_count : ℤ
  reason : String
  estimated_savings : SavingsEstimate
deriving DecidableEq

/-- `CostAnalyzer.analyze_container_cost_optimization`. -/
def analyze_container_cost_optimization (wp : String) (c : Container)
    (config : Config) : List CostRecommendation :=
  let tier_config := config.cost_analysis.tier_recommendations
  let cool_tier_days := tier_config.cool_tier_days.getD 30
  let min_size_gb := tier_config.min_size_gb.getD 1
  let stale_blob_count := c.stale_blob_count
  let stale_size_bytes := c.stale_size_bytes
  let stale_size_gb : ℚ := (stale_size_bytes : ℚ) / 1024 ^ 3
  if stale_size_gb < min_size_gb then []
  else
    let hot_tier := c.access_tier_distribution.hot
    (if 0 < hot_tier.count ∧ 0 < stale_blob_count then
      let hot_stale_share : ℚ := (stale_blob_count : ℚ) / (max c.blob_count 1 : ℕ)
      let hot_stale_size : ℚ := (hot_tier.size_bytes : ℚ) * hot_stale_share
      if 0 < hot_stale_size then
        [{ rtype := "tier_optimization", severity := "medium", container := c.name,
           current_tier := "Hot", recommended_tier := "Cool",
           affected_size_bytes := hot_stale_size,
           affected_blob_count := ⌊(hot_tier.count : ℚ) * hot_stale_share⌋,
           reason := "Blobs not accessed in " ++ toString cool_tier_days ++
             "+ days should move to Cool tier",
           estimated_savings := calculate_tier_optimization_savings wp
             "Hot" "Cool" (⌊hot_stale_size⌋ : ℚ) "Standard_LRS" }]
      else []
    else []) ++
    (if 0 < stale_size_bytes then
      [{ rtype := "tier_optimization", severity := "low", container := c.name,
         current_tier := "Cool", recommended_tier := "Archive",
         affected_size_bytes := (stale_size_bytes : ℚ),
         affected_blob_count := (stale_blob_count : ℤ),
         reason := "Very old data (180+ days) could move to Archive tier",
         estimated_savings := calculate_tier_optimization_savings wp
           "Cool" "Archive" (stale_size_bytes : ℚ) "Standard_LRS" }]
    else [])

/-- A file-share usage record, restricted to the fields the embedded code
reads (`name`, `usage_bytes`). -/
structure FileShare where
  name : String
  usage_bytes : ℕ
deriving DecidableEq

/-- The fixed FSLogix/AVD keyword list of
`detect_workload_profile_from_shares` in `assess_storage.py`. -/
def fslogix_indicators : List String :=
  ["fslogix", "profile", "userprofile", "avd", "wvd", "vdi", "citrix"]

/-- Python `indicator in share_name` after `share.get('name', '').lower()`:
case-insensitive substring test of one indicator against a share name. -/
def shareNameMatches (share : FileShare) : Bool :=
  fslogix_indicators.any (fun indicator =>
    decide (indicator.toList <:+: share.name.toList.map Char.toLower))

/-- Total `usage_bytes` over a share list. -/
def totalUsageBytes (file_shares : List FileShare) : ℕ :=
  (file_shares.map (fun share => share.usage_bytes)).sum

/-- `detect_workload_profile_from_shares` from `assess_storage.py`. The
Python loop returns `'heavy'` at the first matching share name, which equals
the `any`-test used here. -/
def detect_workload_profile_from_shares (file_shares : List FileShare) : String :=
  if file_shares.isEmpty then "light"
  else if file_shares.any shareNameMatches then "heavy"
  else
    let total_capacity_gb : ℚ := (totalUsageBytes file_shares : ℚ) / 1024 ^ 3
    if 500 < total_capacity_gb then "moderate" else "light"

/-- One entry of the `tier_costs` dictionary built by
`CostAnalyzer.analyze_storage_account_costs` for a blob tier. -/
structure TierCost where
  size_bytes : ℕ
  size_gb : ℚ
  monthly_cost : ℚ
deriving DecidableEq

/-- The `FileShares` entry of the `tier_costs` dictionary (it additionally
records the workload profile and an explanatory note). -/
structure FileShareTierCost where
  size_bytes : ℕ
  size_gb : ℚ
  monthly_cost : ℚ
  workload_profile : String
  note : String
deriving DecidableEq

/-- The dictionary returned by `CostAnalyzer.analyze_storage_account_costs`;
the `tier_costs` dictionary is flattened into one optional field per key
(`none` encodes an absent key, i.e. a zero-size tier). -/
structure CostAnalysis where
  storage_account : String
  total_size_bytes : ℕ
  total_size_gb : ℚ
  sku : String
  tier_costs_hot : Option TierCost
  tier_costs_cool : Option TierCost
  tier_costs_archive : Option TierCost
  tier_costs_file_shares : Option FileShareTierCost
  total_monthly_cost : ℚ
  total_annual_cost : ℚ
  optimization_recommendations : List CostRecommendation
  total_monthly_savings : ℚ
  total_annual_savings : ℚ
  savings_percent : ℚ
deriving DecidableEq

/-- Size, in bytes, held in blob tier `t` summed over `containers`
(`access_tier_distribution.get(tier, {}).get('size_bytes', 0)`). -/
def tierSizeBytes (containers : List Container) (t : AccessTierDist → TierBucket) : ℕ :=
  (containers.map (fun c => (t c.access_tier_distribution).size_bytes)).sum

/-- The `tier_costs[tier]` entry for one blob tier: present iff the summed
size is positive. -/
def blobTierCost (wp : String) (sku : String) (tier : String) (tier_size : ℕ) :
    Option TierCost :=
  if 0 < tier_size then
    some { size_bytes := tier_size
           size_gb := (tier_size : ℚ) / 1024 ^ 3
           monthly_cost := estimate_storage_cost wp (tier_size : ℚ) tier sku }
  else none

/-- `CostAnalyzer.analyze_storage_account_costs`. -/
def analyze_storage_account_costs (wp : String) (sa : StorageAccount)
    (containers : List Container) (file_shares : List FileShare)
    (config : Config) : CostAnalysis :=
  let total_size_bytes :=
    (containers.map (fun c => c.total_size_bytes)).sum + totalUsageBytes file_shares
  let sku := sa.sku.getD "Standard_LRS"
  let hot_cost := blobTierCost wp sku "Hot"
    (tierSizeBytes containers (fun d => d.hot))
  let cool_cost := blobTierCost wp sku "Cool"
    (tierSizeBytes containers (fun d => d.cool))
  let archive_cost := blobTierCost wp sku "Archive"
    (tierSizeBytes containers (fun d => d.archive))
  let file_share_size := totalUsageBytes file_shares
  let fs_cost : Option FileShareTierCost :=
    if 0 < file_share_size then
      some { size_bytes := file_share_size
             size_gb := (file_share_size : ℚ) / 1024 ^ 3
             monthly_cost := estimate_storage_cost wp (file_share_size : ℚ) "FileShares" sku
             workload_profile := wp
             note := "Estimate based on \"" ++ wp ++
               "\" workload profile. Actual costs vary by transaction patterns." }
    else none
  let total_monthly_cost :=
    (hot_cost.map (fun tc => tc.monthly_cost)).getD 0 +
    (cool_cost.map (fun tc => tc.monthly_cost)).getD 0 +
    (archive_cost.map (fun tc => tc.monthly_cost)).getD 0 +
    (fs_cost.map (fun tc => tc.monthly_cost)).getD 0
  let all_recommendations :=
    containers.flatMap (fun c => analyze_container_cost_optimization wp c config)
  let total_monthly_savings :=
    (all_recommendations.map (fun r => r.estimated_savings.monthly_savings)).sum
  { storage_account := sa.name
    total_size_bytes := total_size_bytes
    total_size_gb := (total_size_bytes : ℚ) / 1024 ^ 3
    sku := sku
    tier_costs_hot := hot_cost
    tier_costs_cool := cool_cost
    tier_costs_archive := archive_cost
    tier_costs_file_shares := fs_cost
    total_monthly_cost := total_monthly_cost
    total_annual_cost := total_monthly_cost * 12
    optimization_recommendations := all_recommendations
    total_monthly_savings := total_monthly_savings
    total_annual_savings := total_monthly_savings * 12
    savings_percent :=
      if 0 < total_monthly_cost then total_monthly_savings / total_monthly_cost * 100
      else 0 }

/-- The dictionary returned by `GovernanceAnalyzer.analyze_governance`
(same record shape as the security result, without a score); the claims
under check never inspect its construction, only carry it around, so only
its record shape is embedded. -/
structure GovernanceAnalysis where
  storage_account : String
  total_findings : ℕ
  critical_findings : List Finding
  high_findings : List Finding
  medium_findings : List Finding
  low_findings : List Finding
  info_findings : List Finding
  all_findings : List Finding
deriving DecidableEq

/-- The per-resource assessment record returned by
`StorageAssessment._process_storage_account`; the metrics summary is an
opaque key/value record, and `cost_analysis` is `none` when the cost step is
disabled (the Python code stores `{}` then). -/
structure Assessment where
  storage_account : StorageAccount
  containers : List Container
  file_shares : List FileShare
  metrics : List (String × ℚ)
  cost_analysis : Option CostAnalysis
  security_analysis : SecurityAnalysis
  governance_analysis : GovernanceAnalysis
deriving DecidableEq

/-- The workload-profile re-detection pass at the start of
`StorageAssessment.analyze_results`: when the configured profile is
`'auto'`, detect a profile from all collected file shares and overwrite each
assessment's `cost_analysis` with a re-run of
`analyze_storage_account_costs` under the detected profile (guarded by
`cost_analysis.enabled`); otherwise leave the assessments untouched. -/
def redetect_pass (config : Config) (accounts : List Assessment) :
    List Assessment :=
  if config.cost_analysis.workload_profile.getD "moderate" = "auto" then
    let all_file_shares := accounts.flatMap (fun a => a.file_shares)
    let detected_profile := detect_workload_profile_from_shares all_file_shares
    accounts.map (fun account_data =>
      if config.cost_analysis.enabled.getD true then
        { account_data with
            cost_analysis := some (analyze_storage_account_costs detected_profile
              account_data.storage_account account_data.containers
              account_data.file_shares config) }
      else account_data)
  else accounts

/-- One entry of the list built by
`StorageAssessment._generate_top_recommendations`; security entries carry no
`estimated_savings` key (`none` here), cost entries do. -/
structure TopRec where
  storage_account : String
  severity : String
  title : String
  finding : String
  impact : String
  recommendation : String
  estimated_savings : Option ℚ
  category : String
deriving DecidableEq

/-- The `severity_order` dictionary of `_generate_top_recommendations`, read
with `.get(severity, 99)`. -/
def severity_order (s : String) : ℕ :=
  if s = "critical" then 0
  else if s = "high" then 1
  else if s = "medium" then 2
  else if s = "low" then 3
  else if s = "info" then 4
  else 99

/-- Sort-key savings component: `x.get('estimated_savings', 0)`. -/
def topRecSavings (r : TopRec) : ℚ :=
  r.estimated_savings.getD 0

/-- The comparison realised by Python's ascending sort on the key
`(severity_order.get(severity, 99), -estimated_savings)`. -/
def topRecLE (a b : TopRec) : Bool :=
  decide (severity_order a.severity < severity_order b.severity ∨
    (severity_order a.severity = severity_order b.severity ∧
      topRecSavings b ≤ topRecSavings a))

/-- `account.get('cost_analysis', {}).get('optimization_recommendations', [])`. -/
def costRecsOf (a : Assessment) : List CostRecommendation :=
  (a.cost_analysis.map (fun ca => ca.optimization_recommendations)).getD []

/-- `StorageAssessment._generate_top_recommendations`: merge security
findings and cost recommendations of every assessment, sort ascending by
`(severity rank, -savings)` (a stable sort, like Python's `list.sort`), and
keep the first 20. -/
def generate_top_recommendations (accounts : List Assessment) : List TopRec :=
  let recommendations := accounts.flatMap (fun a =>
    a.security_analysis.all_findings.map (fun f =>
      { storage_account := a.storage_account.name
        severity := f.severity
        title := f.finding
        finding := f.finding
        impact := f.ftype
        recommendation := f.recommendation
        estimated_savings := none
        category := "security" }) ++
    (costRecsOf a).map (fun r =>
      { storage_account := a.storage_account.name
        severity := r.severity
        title := "Optimize " ++ r.container ++ " tier"
        finding := r.reason
        impact := "Cost optimization: " ++ r.current_tier ++ " → " ++ r.recommended_tier
        recommendation := r.reason
        estimated_savings := some r.estimated_savings.monthly_savings
        category := "cost" }))
  (recommendations.mergeSort topRecLE).take 20

/-! ## Concrete fixtures used by scenario theorems and witnesses -/

/-- A configuration dictionary with every optional key absent, so every
`.get` default applies. -/
def defaultConfig : Config :=
  { security := ⟨none, none, none, none, none, none⟩
    cost_analysis := ⟨none, none, ⟨none, none, none⟩⟩ }

/-- The storage-account snapshot of the spec's security scenario:
public blob access enabled, HTTPS-only off, minimum TLS version `TLS1_0`,
blob soft delete disabled, versioning disabled — and otherwise securely
configured (all services encrypted, customer-managed keys, deny-by-default
network with a virtual-network rule, shared-key access disabled, container
soft delete enabled, change feed enabled). -/
def c4Account : StorageAccount :=
  { name := "scenarioaccount", location := "eastus", subscription_id := "sub-1"
    sku := some "Standard_LRS"
    allow_blob_public_access := some true
    https_only := some false
    min_tls_version := some "TLS1_0"
    encryption_services := ⟨true, true, true, true⟩
    encryption_key_source := some "Microsoft.Keyvault"
    network_rule_set := ⟨some "Deny", [], ["vnet-rule-1"]⟩
    allow_shared_key_access := some false
    default_to_oauth_authentication := some true
    blob_service_properties := ⟨false, true, false, true⟩ }

/-- A container whose total stale size passes the 1 GB minimum-size gate
(2 GiB stale) while only 0.5 GiB of data sits in the Hot tier: the
proportional Hot→Cool recommendation then falls below the minimum size. -/
def c3Container : Container :=
  { name := "logs", blob_count := 10, stale_blob_count := 10
    stale_size_bytes := 2 * 1024 ^ 3, total_size_bytes := 2 * 1024 ^ 3
    access_tier_distribution := ⟨⟨5, 536870912⟩, ⟨0, 0⟩, ⟨0, 0⟩⟩ }

/-- A configuration whose cost workload profile is set to `auto`. -/
def autoConfig : Config :=
  { security := ⟨none, none, none, none, none, none⟩
    cost_analysis := ⟨some true, some "auto", ⟨none, none, none⟩⟩ }

/-- A concrete assessment record, used to witness the frame property of the
profile re-detection pass. -/
def sampleAssessment : Assessment :=
  { storage_account := c4Account
    containers := [c3Container]
    file_shares := [⟨"teamshare", 1024 ^ 3⟩]
    metrics := [("transactions", 42)]
    cost_analysis := some (analyze_storage_account_costs "moderate" c4Account
      [c3Container] [⟨"teamshare", 1024 ^ 3⟩] autoConfig)
    security_analysis := analyze_storage_account_security c4Account autoConfig
    governance_analysis :=
      { storage_account := "scenarioaccount", total_findings := 0
        critical_findings := [], high_findings := [], medium_findings := []
        low_findings := [], info_findings := [], all_findings := [] } }

/-! ## Claim theorems -/

/-- **C1.** For every storage-account snapshot and configuration, the
security score returned by `analyze_storage_account_security` equals
`max 0 (100 - 25*critical - 15*high - 5*medium)` counted over the produced
findings; consequently the score lies in `[0, 100]`, a snapshot with zero
findings scores exactly 100, and (as the formula only mentions the
critical/high/medium counts) low/info findings never change the score. -/
theorem security_score_spec (sa : StorageAccount) (config : Config) :
    (analyze_storage_account_security sa config).security_score =
      max 0 (100
        - 25 * (countSeverity (analyze_storage_account_security sa config).all_findings "critical" : ℤ)
        - 15 * (countSeverity (analyze_storage_account_security sa config).all_findings "high" : ℤ)
        - 5 * (countSeverity (analyze_storage_account_security sa config).all_findings "medium" : ℤ)) ∧
    0 ≤ (analyze_storage_account_security sa config).security_score ∧
    (analyze_storage_account_security sa config).security_score ≤ 100 ∧
    ((analyze_storage_account_security sa config).all_findings = [] →
      (analyze_storage_account_security sa config).security_score = 100) := by
  have hform : (analyze_storage_account_security sa config).security_score =
      max 0 (100
        - 25 * (countSeverity (analyze_storage_account_security sa config).all_findings "critical" : ℤ)
        - 15 * (countSeverity (analyze_storage_account_security sa config).all_findings "high" : ℤ)
        - 5 * (countSeverity (analyze_storage_account_security sa config).all_findings "medium" : ℤ)) := rfl
  refine ⟨hform, ?_, ?_, ?_⟩
  · rw [hform]; exact le_max_left _ _
  · rw [hform]
    apply max_le (by norm_num)
    have h1 : (0 : ℤ) ≤ (countSeverity (analyze_storage_account_security sa config).all_findings "critical" : ℤ) := Int.natCast_nonneg _
    have h2 : (0 : ℤ) ≤ (countSeverity (analyze_storage_account_security sa config).all_findings "high" : ℤ) := Int.natCast_nonneg _
    have h3 : (0 : ℤ) ≤ (countSeverity (analyze_storage_account_security sa config).all_findings "medium" : ℤ) := Int.natCast_nonneg _
    omega
  · intro hempty
    rw [hform, hempty]
    simp [countSeverity]

/-- **C4.** Security scenario: every snapshot with public blob access
enabled, HTTPS-only off, minimum TLS version `TLS1_0`, blob soft delete
disabled and versioning disabled produces (under the default configuration)
findings including a high public-access finding, a high HTTPS finding, a
medium TLS-version finding and a medium soft-delete finding; and the
scenario snapshot `c4Account` (which has exactly these weaknesses) scores
exactly 60. -/
theorem c4_security_scenario (sa : StorageAccount)
    (h1 : sa.allow_blob_public_access = some true)
    (h2 : sa.https_only = some false)
    (h3 : sa.min_tls_version = some "TLS1_0")
    (h4 : sa.blob_service_properties.delete_retention_enabled = false)
    (h5 : sa.blob_service_properties.is_versioning_enabled = false) :
    ((∃ f ∈ (analyze_storage_account_security sa defaultConfig).all_findings,
        f.ftype = "public_access" ∧ f.severity = "high") ∧
     (∃ f ∈ (analyze_storage_account_security sa defaultConfig).all_findings,
        f.ftype = "encryption_in_transit" ∧ f.severity = "high") ∧
     (∃ f ∈ (analyze_storage_account_security sa defaultConfig).all_findings,
        f.ftype = "tls_version" ∧ f.severity = "medium") ∧
     (∃ f ∈ (analyze_storage_account_security sa defaultConfig).all_findings,
        f.finding = "Soft delete for blobs is not enabled" ∧ f.severity = "medium") ∧
     (∃ f ∈ (analyze_storage_account_security sa defaultConfig).all_findings,
        f.finding = "Blob versioning is not enabled" ∧ f.severity = "low")) ∧
    (analyze_storage_account_security c4Account defaultConfig).security_score = 60 := by
  have hall : (analyze_storage_account_security sa defaultConfig).all_findings =
      analyze_public_access sa ++ analyze_encryption sa ++ analyze_network_access sa ++
      analyze_authentication sa ++ analyze_data_protection sa := rfl
  rw [hall]
  refine ⟨⟨?_, ?_, ?_, ?_, ?_⟩, by decide⟩
  · exact ⟨{ ftype := "public_access", severity := "high", resource := sa.name,
             finding := "Public blob access is enabled at storage account level",
             recommendation := "Disable public blob access unless specifically required",
             remediation := "Set allowBlobPublicAccess to false" },
        by simp [analyze_public_access, h1], rfl, rfl⟩
  · exact ⟨{ ftype := "encryption_in_transit", severity := "high", resource := sa.name,
             finding := "HTTPS-only traffic is not enforced",
             recommendation := "Enable HTTPS-only traffic to protect data in transit",
             remediation := "Set supportsHttpsTrafficOnly to true" },
        by simp [analyze_encryption, h2], rfl, rfl⟩
  · exact ⟨{ ftype := "tls_version", severity := "medium", resource := sa.name,
             finding := "Minimum TLS version is TLS1_0, should be TLS 1.2 or higher",
             recommendation := "Set minimum TLS version to TLS 1.2",
             remediation := "Set minimumTlsVersion to TLS1_2" },
        by simp [analyze_encryption, h3], rfl, rfl⟩
  · exact ⟨{ ftype := "data_protection", severity := "medium", resource := sa.name,
             finding := "Soft delete for blobs is not enabled",
             recommendation := "Enable soft delete to protect against accidental deletion",
             remediation := "Enable soft delete with appropriate retention period (7-365 days)" },
        by simp [analyze_data_protection, h4], rfl, rfl⟩
  · exact ⟨{ ftype := "data_protection", severity := "low", resource := sa.name,
             finding := "Blob versioning is not enabled",
             recommendation := "Consider enabling versioning for better data protection",
             remediation := "Enable blob versioning" },
        by simp [analyze_data_protection, h5], rfl, rfl⟩

/-- Witness for `c4_security_scenario`: the scenario snapshot `c4Account`
satisfies all five scenario preconditions, yields the four named findings
and scores exactly 60. -/
theorem c4_security_scenario_check :
    (c4Account.allow_blob_public_access = some true ∧
      c4Account.https_only = some false ∧
      c4Account.min_tls_version = some "TLS1_0" ∧
      c4Account.blob_service_properties.delete_retention_enabled = false ∧
      c4Account.blob_service_properties.is_versioning_enabled = false) ∧
    ((∃ f ∈ (analyze_storage_account_security c4Account defaultConfig).all_findings,
        f.ftype = "public_access" ∧ f.severity = "high") ∧
     (∃ f ∈ (analyze_storage_account_security c4Account defaultConfig).all_findings,
        f.ftype = "encryption_in_transit" ∧ f.severity = "high") ∧
     (∃ f ∈ (analyze_storage_account_security c4Account defaultConfig).all_findings,
        f.ftype = "tls_version" ∧ f.severity = "medium") ∧
     (∃ f ∈ (analyze_storage_account_security c4Account defaultConfig).all_findings,
        f.finding = "Soft delete for blobs is not enabled" ∧ f.severity = "medium") ∧
     (∃ f ∈ (analyze_storage_account_security c4Account defaultConfig).all_findings,
        f.finding = "Blob versioning is not enabled" ∧ f.severity = "low")) ∧
    (analyze_storage_account_security c4Account defaultConfig).security_score = 60 :=
  ⟨⟨rfl, rfl, rfl, rfl, rfl⟩,
    (c4_security_scenario c4Account rfl rfl rfl rfl rfl).1,
    (c4_security_scenario c4Account rfl rfl rfl rfl rfl).2⟩

/-- **C8.** `analyze_authentication` emits the medium-severity shared-key
authentication finding if and only if the snapshot's
`allow_shared_key_access` field is not exactly `false` (in particular, also
when the field is absent). -/
theorem shared_key_finding_iff (sa : StorageAccount) :
    (∃ f ∈ analyze_authentication sa,
        f.ftype = "authentication" ∧ f.severity = "medium") ↔
      sa.allow_shared_key_access ≠ some false := by
  unfold analyze_authentication
  by_cases h : sa.allow_shared_key_access = some false
  · simp only [h, ne_eq, not_true_eq_false, iff_false]
    rintro ⟨f, hf, hty, hsev⟩
    rw [if_neg (by simp)] at hf
    rcases List.mem_append.mp hf with h1 | h2
    · simp at h1
    · by_cases ho : (sa.default_to_oauth_authentication.getD false) = false
      · rw [if_pos ho] at h2
        simp at h2
        rw [h2] at hsev
        simp at hsev
      · rw [if_neg ho] at h2
        simp at h2
  · simp only [h, ne_eq, not_false_eq_true, iff_true]
    exact ⟨{ ftype := "authentication", severity := "medium", resource := sa.name,
             finding := "Shared key (access key) authentication is enabled",
             recommendation := "Consider disabling shared key access and use Azure AD authentication only",
             remediation := "Set allowSharedKeyAccess to false (after ensuring apps use Azure AD)" },
      by simp [h], rfl, rfl⟩

/-- **C5.** `detect_workload_profile_from_shares` returns `heavy` whenever
some share name contains an FSLogix/AVD keyword as a case-insensitive
substring, regardless of total usage; when no name matches it returns
`moderate` iff the summed usage exceeds 500 GB and `light` otherwise; the
empty share list yields `light`. -/
theorem detect_workload_spec (file_shares : List FileShare) :
    ((∃ sh ∈ file_shares, shareNameMatches sh = true) →
      detect_workload_profile_from_shares file_shares = "heavy") ∧
    ((∀ sh ∈ file_shares, shareNameMatches sh = false) →
      ((detect_workload_profile_from_shares file_shares = "moderate" ↔
          500 < (totalUsageBytes file_shares : ℚ) / 1024 ^ 3) ∧
       (detect_workload_profile_from_shares file_shares = "light" ↔
          ¬ 500 < (totalUsageBytes file_shares : ℚ) / 1024 ^ 3))) ∧
    detect_workload_profile_from_shares [] = "light" := by
  refine ⟨?_, ?_, rfl⟩
  · rintro ⟨sh, hmem, hmatch⟩
    have hne : file_shares.isEmpty = false := by
      cases file_shares with
      | nil => cases hmem
      | cons a t => rfl
    have hany : file_shares.any shareNameMatches = true :=
      List.any_eq_true.mpr ⟨sh, hmem, hmatch⟩
    rw [detect_workload_profile_from_shares, hne, hany]
    rfl
  · intro hnone
    have hany : file_shares.any shareNameMatches = false := by
      rw [List.any_eq_false]
      intro sh hmem
      rw [hnone sh hmem]
      exact Bool.false_ne_true
    rw [detect_workload_profile_from_shares, hany]
    cases hempty : file_shares.isEmpty with
    | true =>
      have h0 : totalUsageBytes file_shares = 0 := by
        rw [List.isEmpty_iff] at hempty
        rw [hempty]
        rfl
      rw [h0]
      norm_num
      decide
    | false =>
      simp only [Bool.false_eq_true, if_false]
      by_cases hgt : 500 < (totalUsageBytes file_shares : ℚ) / 1024 ^ 3
      · rw [if_pos hgt]
        simp [hgt]
      · rw [if_neg hgt]
        simp [hgt]

/-- Witness for `detect_workload_spec`: a share literally named
`fslogix-profiles` forces `heavy` even with zero bytes, a keyword-free
share set totalling 600 GB yields `moderate`, and the empty list yields
`light`. -/
theorem detect_workload_spec_check :
    detect_workload_profile_from_shares [⟨"fslogix-profiles", 0⟩] = "heavy" ∧
    detect_workload_profile_from_shares [⟨"teamdata", 600 * 1024 ^ 3⟩] = "moderate" ∧
    detect_workload_profile_from_shares [] = "light" :=
  ⟨(detect_workload_spec [⟨"fslogix-profiles", 0⟩]).1
      ⟨⟨"fslogix-profiles", 0⟩, by decide, by decide⟩,
    ((detect_workload_spec [⟨"teamdata", 600 * 1024 ^ 3⟩]).2.1
      (by decide)).1.mpr (by norm_num [totalUsageBytes]),
    (detect_workload_spec []).2.2⟩

/-- A successful association-list lookup returns a value stored in the
list. -/
theorem mem_of_lookup_eq_some {α β : Type} [BEq α] {l : List (α × β)} {a : α}
    {b : β} (h : l.lookup a = some b) : ∃ k, (k, b) ∈ l := by
  induction l with
  | nil => simp [List.lookup] at h
  | cons p t ih =>
    obtain ⟨k, v⟩ := p
    rw [List.lookup] at h
    cases hk : a == k with
    | true =>
      rw [hk] at h
      exact ⟨k, by simp [Option.some_inj.mp h]⟩
    | false =>
      rw [hk] at h
      obtain ⟨k2, hk2⟩ := ih h
      exact ⟨k2, List.mem_cons_of_mem _ hk2⟩

/-- A lookup with a non-negative default over a table of non-negative values
is non-negative. -/
theorem getD_lookup_nonneg {l : List (String × ℚ)} (hl : ∀ p ∈ l, 0 ≤ p.2)
    {s : String} {d : ℚ} (hd : 0 ≤ d) : 0 ≤ (l.lookup s).getD d := by
  cases h : l.lookup s with
  | none => simpa using hd
  | some v =>
    obtain ⟨k, hk⟩ := mem_of_lookup_eq_some h
    simpa using hl _ hk

/-- Every price in the blob pricing table is non-negative. -/
theorem PRICING_nonneg : ∀ q ∈ PRICING, ∀ p ∈ q.2, 0 ≤ p.2 := by
  intro q hq
  fin_cases hq <;> intro p hp <;> fin_cases hp <;> norm_num

/-- Every price in the file-share pricing table is non-negative. -/
theorem FILE_SHARE_PRICING_nonneg : ∀ q ∈ FILE_SHARE_PRICING, ∀ p ∈ q.2, 0 ≤ p.2 := by
  intro q hq
  fin_cases hq <;> intro p hp <;> fin_cases hp <;> norm_num

/-- The blob branch of `estimate_storage_cost`, exposed as an equation for a
tier that is not the `FileShares` pseudo-tier. -/
theorem estimate_cost_blob_branch (wp access_tier sku : String)
    (hfs : access_tier ≠ "FileShares") (size_bytes : ℚ) :
    estimate_storage_cost wp size_bytes access_tier sku =
      if size_bytes = 0 then 0
      else
        let tier := if (PRICING.lookup access_tier).isSome then access_tier else "Hot"
        let tier_table := (PRICING.lookup tier).getD []
        let sku2 := if (tier_table.lookup sku).isSome then sku else "Standard_LRS"
        size_bytes / 1024 ^ 3 * (tier_table.lookup sku2).getD 0.0184 := by
  unfold estimate_storage_cost
  rw [if_neg hfs]

/-- The file-share branch of `estimate_storage_cost`, exposed as an
equation. -/
theorem estimate_cost_fs_branch (wp sku : String) (size_bytes : ℚ) :
    estimate_storage_cost wp size_bytes "FileShares" sku =
      if size_bytes = 0 then 0
      else
        let profile := if (FILE_SHARE_PRICING.lookup wp).isSome then wp else "moderate"
        let pricing_table := (FILE_SHARE_PRICING.lookup profile).getD []
        let sku2 := if (pricing_table.lookup sku).isSome then sku else "Standard_LRS"
        size_bytes / 1024 ^ 3 * (pricing_table.lookup sku2).getD 0.20 := by
  unfold estimate_storage_cost
  rw [if_pos rfl]

/-- The inner table returned by an outer lookup in a two-level non-negative
pricing table has non-negative values. -/
theorem inner_table_nonneg {P : List (String × List (String × ℚ))}
    (hP : ∀ q ∈ P, ∀ p ∈ q.2, 0 ≤ p.2) (t : String) :
    ∀ p ∈ ((P.lookup t).getD []), 0 ≤ p.2 := by
  cases h : P.lookup t with
  | none => simp
  | some tbl =>
    obtain ⟨k, hk⟩ := mem_of_lookup_eq_some h
    simpa using hP _ hk

/-- **C6.** `estimate_storage_cost` is total (the embedding is a total
function) and safe: for every non-negative size and arbitrary tier/SKU
strings the result is non-negative; a tier absent from the blob pricing
table is priced as the `Hot` tier; a SKU absent from the selected blob
table is priced as `Standard_LRS`; an unrecognised workload profile falls
back to the `moderate` file-share table; and a SKU absent from the selected
file-share table is priced as `Standard_LRS`. -/
theorem estimate_cost_safe (wp access_tier sku : String) (size_bytes : ℚ)
    (h : 0 ≤ size_bytes) :
    0 ≤ estimate_storage_cost wp size_bytes access_tier sku ∧
    (access_tier ≠ "FileShares" → PRICING.lookup access_tier = none →
      estimate_storage_cost wp size_bytes access_tier sku =
        estimate_storage_cost wp size_bytes "Hot" sku) ∧
    (∀ tbl, access_tier ≠ "FileShares" → PRICING.lookup access_tier = some tbl →
      tbl.lookup sku = none →
      estimate_storage_cost wp size_bytes access_tier sku =
        estimate_storage_cost wp size_bytes access_tier "Standard_LRS") ∧
    (FILE_SHARE_PRICING.lookup wp = none →
      estimate_storage_cost wp size_bytes "FileShares" sku =
        estimate_storage_cost "moderate" size_bytes "FileShares" sku) ∧
    (∀ tbl, FILE_SHARE_PRICING.lookup wp = some tbl → tbl.lookup sku = none →
      estimate_storage_cost wp size_bytes "FileShares" sku =
        estimate_storage_cost wp size_bytes "FileShares" "Standard_LRS") := by
  have hgb : 0 ≤ size_bytes / 1024 ^ 3 := by positivity
  refine ⟨?_, ?_, ?_, ?_, ?_⟩
  · by_cases hfs : access_tier = "FileShares"
    · subst hfs
      rw [estimate_cost_fs_branch]
      split
      · exact le_refl 0
      · exact mul_nonneg hgb (getD_lookup_nonneg
          (inner_table_nonneg FILE_SHARE_PRICING_nonneg _) (by norm_num))
    · rw [estimate_cost_blob_branch wp access_tier sku hfs]
      split
      · exact le_refl 0
      · exact mul_nonneg hgb (getD_lookup_nonneg
          (inner_table_nonneg PRICING_nonneg _) (by norm_num))
  · intro hfs hmiss
    rw [estimate_cost_blob_branch wp access_tier sku hfs,
      estimate_cost_blob_branch wp "Hot" sku (by decide)]
    simp only [hmiss, Option.isSome_none, Bool.false_eq_true, if_false, ite_self]
  · intro tbl hfs htier hmiss
    rw [estimate_cost_blob_branch wp access_tier sku hfs,
      estimate_cost_blob_branch wp access_tier "Standard_LRS" hfs]
    simp only [htier, hmiss, Option.isSome_some, Option.isSome_none, Option.getD_some,
      if_true, Bool.false_eq_true, if_false, ite_self]
  · intro hmiss
    rw [estimate_cost_fs_branch wp sku, estimate_cost_fs_branch "moderate" sku]
    simp only [hmiss, Option.isSome_none, Bool.false_eq_true, if_false, ite_self]
  · intro tbl hwp hmiss
    rw [estimate_cost_fs_branch wp sku, estimate_cost_fs_branch wp "Standard_LRS"]
    simp only [hwp, hmiss, Option.isSome_some, Option.isSome_none, Option.getD_some,
      if_true, Bool.false_eq_true, if_false, ite_self]


/-- Witness for `estimate_cost_safe`: instantiation at an unknown tier,
unknown SKU and unknown workload profile with a positive size. -/
theorem estimate_cost_safe_check :
    (0 : ℚ) ≤ 5 * 1024 ^ 3 ∧
    (0 ≤ estimate_storage_cost "unheard" ((5 : ℚ) * 1024 ^ 3) "Lukewarm" "Custom_SKU" ∧
      ("Lukewarm" ≠ "FileShares" → PRICING.lookup "Lukewarm" = none →
        estimate_storage_cost "unheard" ((5 : ℚ) * 1024 ^ 3) "Lukewarm" "Custom_SKU" =
          estimate_storage_cost "unheard" ((5 : ℚ) * 1024 ^ 3) "Hot" "Custom_SKU") ∧
      (∀ tbl, "Lukewarm" ≠ "FileShares" → PRICING.lookup "Lukewarm" = some tbl →
        tbl.lookup "Custom_SKU" = none →
        estimate_storage_cost "unheard" ((5 : ℚ) * 1024 ^ 3) "Lukewarm" "Custom_SKU" =
          estimate_storage_cost "unheard" ((5 : ℚ) * 1024 ^ 3) "Lukewarm" "Standard_LRS") ∧
      (FILE_SHARE_PRICING.lookup "unheard" = none →
        estimate_storage_cost "unheard" ((5 : ℚ) * 1024 ^ 3) "FileShares" "Custom_SKU" =
          estimate_storage_cost "moderate" ((5 : ℚ) * 1024 ^ 3) "FileShares" "Custom_SKU") ∧
      (∀ tbl, FILE_SHARE_PRICING.lookup "unheard" = some tbl →
        tbl.lookup "Custom_SKU" = none →
        estimate_storage_cost "unheard" ((5 : ℚ) * 1024 ^ 3) "FileShares" "Custom_SKU" =
          estimate_storage_cost "unheard" ((5 : ℚ) * 1024 ^ 3) "FileShares" "Standard_LRS")) :=
  ⟨by norm_num,
    estimate_cost_safe "unheard" "Lukewarm" "Custom_SKU" ((5 : ℚ) * 1024 ^ 3) (by norm_num)⟩

/-- The per-GB price that `estimate_storage_cost` resolves for a
(workload profile, tier, SKU) triple, factored out of its non-zero branch:
the file-share table when the tier is `FileShares` (falling back to the
`moderate` profile and the `Standard_LRS` SKU), the blob table otherwise
(falling back to the `Hot` tier and the `Standard_LRS` SKU). -/
def resolved_price (wp access_tier sku : String) : ℚ :=
  if access_tier = "FileShares" then
    let profile := if (FILE_SHARE_PRICING.lookup wp).isSome then wp else "moderate"
    let pricing_table := (FILE_SHARE_PRICING.lookup profile).getD []
    let sku2 := if (pricing_table.lookup sku).isSome then sku else "Standard_LRS"
    (pricing_table.lookup sku2).getD 0.20
  else
    let tier := if (PRICING.lookup access_tier).isSome then access_tier else "Hot"
    let tier_table := (PRICING.lookup tier).getD []
    let sku2 := if (tier_table.lookup sku).isSome then sku else "Standard_LRS"
    (tier_table.lookup sku2).getD 0.0184

/-- **C9.** `estimate_storage_cost` returns exactly 0 at zero size for every
tier and SKU, and for positive sizes returns the size in GB multiplied by
the resolved per-GB price of the (tier, SKU) pair. -/
theorem estimate_cost_shape (wp access_tier sku : String) (size_bytes : ℚ)
    (hpos : 0 < size_bytes) :
    estimate_storage_cost wp 0 access_tier sku = 0 ∧
    estimate_storage_cost wp size_bytes access_tier sku =
      size_bytes / 1024 ^ 3 * resolved_price wp access_tier sku := by
  constructor
  · rw [estimate_storage_cost, if_pos rfl]
  · rw [estimate_storage_cost, if_neg (ne_of_gt hpos), resolved_price]
    split
    · rfl
    · rfl

/-- Witness for `estimate_cost_shape`: at 1 GiB in the Cool tier under
`Standard_GRS` the estimate is exactly the table price 0.02, matching the
resolved price form. -/
theorem estimate_cost_shape_check :
    (0 : ℚ) < 1024 ^ 3 ∧
    (estimate_storage_cost "moderate" 0 "Cool" "Standard_GRS" = 0 ∧
      estimate_storage_cost "moderate" ((1024 : ℚ) ^ 3) "Cool" "Standard_GRS" =
        (1024 : ℚ) ^ 3 / 1024 ^ 3 * resolved_price "moderate" "Cool" "Standard_GRS") :=
  ⟨by norm_num,
    estimate_cost_shape "moderate" "Cool" "Standard_GRS" ((1024 : ℚ) ^ 3) (by norm_num)⟩

/-- The top-recommendation comparison is transitive. -/
theorem topRecLE_trans (a b c : TopRec) (hab : topRecLE a b) (hbc : topRecLE b c) :
    topRecLE a c := by
  simp only [topRecLE, decide_eq_true_eq] at hab hbc ⊢
  rcases hab with h | ⟨h1, h2⟩
  · rcases hbc with h' | ⟨h1', h2'⟩
    · exact Or.inl (h.trans h')
    · exact Or.inl (h1' ▸ h)
  · rcases hbc with h' | ⟨h1', h2'⟩
    · exact Or.inl (h1 ▸ h')
    · exact Or.inr ⟨h1.trans h1', h2'.trans h2⟩

/-- The top-recommendation comparison is total. -/
theorem topRecLE_total (a b : TopRec) : topRecLE a b || topRecLE b a := by
  simp only [topRecLE, Bool.or_eq_true, decide_eq_true_eq]
  rcases lt_trichotomy (severity_order a.severity) (severity_order b.severity) with h | h | h
  · exact Or.inl (Or.inl h)
  · rcases le_total (topRecSavings b) (topRecSavings a) with hs | hs
    · exact Or.inl (Or.inr ⟨h, hs⟩)
    · exact Or.inr (Or.inr ⟨h.symm, hs⟩)
  · exact Or.inr (Or.inl h)

/-- **C2.** For every list of per-resource assessments, the
top-recommendations list has length at most 20 and is pairwise sorted
ascending by severity rank with ties broken by descending estimated monthly
savings (a missing savings figure ranking as 0, via `topRecSavings`). -/
theorem top_recommendations_spec (accounts : List Assessment) :
    (generate_top_recommendations accounts).length ≤ 20 ∧
    (generate_top_recommendations accounts).Pairwise (fun a b =>
      severity_order a.severity < severity_order b.severity ∨
      (severity_order a.severity = severity_order b.severity ∧
        topRecSavings b ≤ topRecSavings a)) := by
  constructor
  · show (List.take 20 _).length ≤ 20
    rw [List.length_take]
    exact min_le_left _ _
  · have hsorted : ∀ l : List TopRec,
        (l.mergeSort topRecLE).Pairwise (fun a b => topRecLE a b = true) :=
      List.sorted_mergeSort topRecLE_trans topRecLE_total
    have htake : ∀ l : List TopRec,
        ((l.mergeSort topRecLE).take 20).Pairwise (fun a b => topRecLE a b = true) :=
      fun l => List.Pairwise.sublist (List.take_sublist _ _) (hsorted l)
    exact (htake _).imp (fun hab => by
      simpa only [topRecLE, decide_eq_true_eq] using hab)

/-- **C7.** When the configured workload profile is `auto`, the profile
re-detection pass rewrites only the `cost_analysis` field of each collected
assessment: the `storage_account`, `containers`, `file_shares`, `metrics`,
`security_analysis` and `governance_analysis` fields of every assessment
are unchanged (the pass is a pure function of the already-collected
assessments, so no inventory is re-fetched). -/
theorem redetect_pass_frame (config : Config) (accounts : List Assessment)
    (h : config.cost_analysis.workload_profile.getD "moderate" = "auto") :
    (redetect_pass config accounts).map Assessment.storage_account =
      accounts.map Assessment.storage_account ∧
    (redetect_pass config accounts).map Assessment.containers =
      accounts.map Assessment.containers ∧
    (redetect_pass config accounts).map Assessment.file_shares =
      accounts.map Assessment.file_shares ∧
    (redetect_pass config accounts).map Assessment.metrics =
      accounts.map Assessment.metrics ∧
    (redetect_pass config accounts).map Assessment.security_analysis =
      accounts.map Assessment.security_analysis ∧
    (redetect_pass config accounts).map Assessment.governance_analysis =
      accounts.map Assessment.governance_analysis := by
  rw [redetect_pass, if_pos h]
  refine ⟨?_, ?_, ?_, ?_, ?_, ?_⟩ <;>
    · rw [List.map_map]
      apply List.map_congr_left
      intro a _
      by_cases hc : config.cost_analysis.enabled.getD true = true <;>
        simp [Function.comp, hc]

/-- Witness for `redetect_pass_frame`: the pass over one concrete
assessment under an `auto`-profile configuration preserves every non-cost
field. -/
theorem redetect_pass_frame_check :
    autoConfig.cost_analysis.workload_profile.getD "moderate" = "auto" ∧
    ((redetect_pass autoConfig [sampleAssessment]).map Assessment.storage_account =
        [sampleAssessment].map Assessment.storage_account ∧
      (redetect_pass autoConfig [sampleAssessment]).map Assessment.containers =
        [sampleAssessment].map Assessment.containers ∧
      (redetect_pass autoConfig [sampleAssessment]).map Assessment.file_shares =
        [sampleAssessment].map Assessment.file_shares ∧
      (redetect_pass autoConfig [sampleAssessment]).map Assessment.metrics =
        [sampleAssessment].map Assessment.metrics ∧
      (redetect_pass autoConfig [sampleAssessment]).map Assessment.security_analysis =
        [sampleAssessment].map Assessment.security_analysis ∧
      (redetect_pass autoConfig [sampleAssessment]).map Assessment.governance_analysis =
        [sampleAssessment].map Assessment.governance_analysis) :=
  ⟨rfl, redetect_pass_frame autoConfig [sampleAssessment] rfl⟩

/-- **C3 counterexample.** The minimum-size gate of
`analyze_container_cost_optimization` only filters on the container's total
stale size: `c3Container` (2 GiB stale, passing the 1 GB gate) still yields
a Hot→Cool recommendation whose affected size (0.5 GiB, the proportional
stale share of its small Hot tier) is below the configured minimum
optimizable size. -/
theorem c3_counterexample :
    ∃ rec ∈ analyze_container_cost_optimization "moderate" c3Container defaultConfig,
      rec.affected_size_bytes <
        defaultConfig.cost_analysis.tier_recommendations.min_size_gb.getD 1 * 1024 ^ 3 := by
  simp only [analyze_container_cost_optimization, c3Container, defaultConfig]
  norm_num

/-- **C3 amended.** The minimum-size suppression applies to the container's
total stale size: recommendations are returned only when the stale size
reaches `min_size_gb` (so in particular the Cool→Archive recommendation,
whose affected size is the full stale-byte total, is at least `min_size_gb`
gigabytes); the Hot→Cool recommendation's proportional affected size may
fall below the minimum. -/
theorem c3_amended_gate (wp : String) (c : Container) (config : Config) :
    (analyze_container_cost_optimization wp c config ≠ [] →
      config.cost_analysis.tier_recommendations.min_size_gb.getD 1 ≤
        (c.stale_size_bytes : ℚ) / 1024 ^ 3) ∧
    (∀ rec ∈ analyze_container_cost_optimization wp c config,
      rec.recommended_tier = "Archive" →
        config.cost_analysis.tier_recommendations.min_size_gb.getD 1 * 1024 ^ 3 ≤
          rec.affected_size_bytes) := by
  by_cases hgate : (c.stale_size_bytes : ℚ) / 1024 ^ 3 <
      config.cost_analysis.tier_recommendations.min_size_gb.getD 1
  · have hempty : analyze_container_cost_optimization wp c config = [] := by
      simp only [analyze_container_cost_optimization]
      rw [if_pos hgate]
    rw [hempty]
    exact ⟨fun hne => absurd rfl hne, fun rec hrec => absurd hrec (List.not_mem_nil rec)⟩
  · push_neg at hgate
    refine ⟨fun _ => hgate, ?_⟩
    intro rec hrec hat
    simp only [analyze_container_cost_optimization] at hrec
    rw [if_neg (not_lt.mpr hgate)] at hrec
    rcases List.mem_append.mp hrec with h1 | h2
    · split_ifs at h1 with hc1 hc2
      · rw [List.mem_singleton] at h1
        subst h1
        simp at hat
      · exact absurd h1 (List.not_mem_nil rec)
      · exact absurd h1 (List.not_mem_nil rec)
    · split_ifs at h2 with hc3
      · rw [List.mem_singleton] at h2
        subst h2
        exact (le_div_iff₀ (by positivity : (0 : ℚ) < 1024 ^ 3)).mp hgate
      · exact absurd h2 (List.not_mem_nil rec)

/-- Witness for `c3_amended_gate`: `c3Container` has a non-empty
recommendation list, and the theorem instantiated there yields the 1 GB
lower bound on its stale size and on its Archive recommendation. -/
theorem c3_amended_gate_check :
    defaultConfig.cost_analysis.tier_recommendations.min_size_gb.getD 1 ≤
      (c3Container.stale_size_bytes : ℚ) / 1024 ^ 3 :=
  (c3_amended_gate "moderate" c3Container defaultConfig).1 (by
    simp only [analyze_container_cost_optimization, c3Container, defaultConfig]
    norm_num
    exact List.cons_ne_nil _ _)

/-- **C10.** Container-level savings estimates are computed with the fixed
SKU `Standard_LRS`: every recommendation's `estimated_savings` equals the
tier-savings computation at its own recorded size under `Standard_LRS`, and
the account-level recommendation list is entirely independent of the
storage account (hence identical for two accounts differing only in their
redundancy SKU). -/
theorem cost_savings_sku_fixed (wp : String) (c : Container) (config : Config)
    (sa1 sa2 : StorageAccount) (containers : List Container)
    (shares : List FileShare) :
    (analyze_container_cost_optimization wp c config).Forall (fun rec =>
      rec.estimated_savings = calculate_tier_optimization_savings wp
        rec.current_tier rec.recommended_tier rec.estimated_savings.size_bytes
        "Standard_LRS") ∧
    (analyze_storage_account_costs wp sa1 containers shares config).optimization_recommendations =
      (analyze_storage_account_costs wp sa2 containers shares config).optimization_recommendations := by
  constructor
  · rw [List.forall_iff_forall_mem]
    intro rec hrec
    simp only [analyze_container_cost_optimization] at hrec
    split_ifs at hrec <;>
      simp only [List.mem_append, List.mem_singleton, List.not_mem_nil, or_false,
        false_or] at hrec <;>
      (rcases hrec with rfl | rfl <;> rfl)
  · rfl

end AzStorage
